import Mathlib

/-!
Shallow embedding of the issue-overlay logic of the VisualAnnotationLayer
component (Brand-Governance repository) together with the selection
navigation behaviour (handleSeekToIssue and the selection effect) and the
video seek-bar tick markers.

Conventions of the embedding:
- JavaScript numbers carrying coordinates, timestamps and durations are
  modelled as rationals; page numbers are modelled as integers (they can
  carry malformed values such as 0 or negatives in upstream data).
- An optional JavaScript field is an Option.
- JavaScript truthiness on a number field (as in the expressions
  issue.page_number, issue.timestamp, issue.page_number or-else 1) is
  falsy exactly on undefined and 0, which the definitions below spell out.
- Each JSX issues.map callback that can return null is a function into
  Option PlacedMarker, and the rendered list of markers is the filterMap
  of that function over the issue list.
-/

/-- Normalized bounding box in percentage units, as in the Issue type. -/
structure BoundingBox where
  x : ℚ
  y : ℚ
  width : ℚ
  height : ℚ
deriving Repr, DecidableEq

/-- Issue severity enumeration. -/
inductive Severity where
  | low
  | medium
  | high
deriving Repr, DecidableEq

/-- An issue record as consumed by VisualAnnotationLayer. -/
structure Issue where
  id : String
  category : String
  description : String
  fix : String
  severity : Severity
  boundingBox : Option BoundingBox
  page_number : Option Int
  timestamp : Option ℚ
deriving Repr, DecidableEq

/-- A placed overlay marker: identifier, badge number (globalIndex + 1),
the percentage anchor produced for the style left/top properties, and the
selection-styling flag. -/
structure PlacedMarker where
  id : String
  badge : Int
  left : ℚ
  top : ℚ
  isSelected : Bool
deriving Repr, DecidableEq

/-- A tick on the video seek bar: issue id and the percentage left offset. -/
structure SeekTick where
  id : String
  left : ℚ
deriving Repr, DecidableEq

/-- JavaScript Array.prototype.findIndex: first index satisfying the
predicate, or -1 when none does. -/
def jsFindIndex (p : Issue → Bool) : List Issue → Int
  | [] => -1
  | a :: l =>
    if p a then 0
    else
      let r := jsFindIndex p l
      if r = -1 then -1 else r + 1

/-- The expression issues.findIndex(x means x.id === issue.id) used to
compute the badge number of a marker. -/
def findIndexId (issues : List Issue) (id : String) : Int :=
  jsFindIndex (fun x => x.id == id) issues

/-- JavaScript truthiness of the optional numeric field page_number:
falsy exactly when the field is undefined or 0. -/
def pageFalsy : Option Int → Bool
  | Option.none => true
  | Option.some q => q == 0

/-- The per-page inclusion test of the PDF and slide carousels:
issue.page_number === index + 1, or the page number is falsy and
index === 0 (index is the 0-based page index). -/
def isPageMatch (issue : Issue) (index : Nat) : Bool :=
  issue.page_number == Option.some ((index : Int) + 1)
    || (pageFalsy issue.page_number && index == 0)

/-- Body of the PDF carousel annotation callback for one issue on the page
with 0-based index: null when the page does not match or there is no
bounding box, otherwise a marker anchored at the box center with badge
globalIndex + 1. -/
def renderPdfMarker (issues : List Issue) (selectedIssueId : Option String)
    (index : Nat) (issue : Issue) : Option PlacedMarker :=
  if !(isPageMatch issue index) then Option.none
  else
    match issue.boundingBox with
    | Option.none => Option.none
    | Option.some box =>
      Option.some
        { id := issue.id
          badge := findIndexId issues issue.id + 1
          left := box.x + box.width / 2
          top := box.y + box.height / 2
          isSelected := selectedIssueId == Option.some issue.id }

/-- Body of the PPTX visual-slide annotation callback for one issue: the
same gating and placement as the PDF carousel branch. -/
def renderSlideMarker (issues : List Issue) (selectedIssueId : Option String)
    (index : Nat) (issue : Issue) : Option PlacedMarker :=
  if !(isPageMatch issue index) then Option.none
  else
    match issue.boundingBox with
    | Option.none => Option.none
    | Option.some box =>
      Option.some
        { id := issue.id
          badge := findIndexId issues issue.id + 1
          left := box.x + box.width / 2
          top := box.y + box.height / 2
          isSelected := selectedIssueId == Option.some issue.id }

/-- Body of the HTML-document floating annotation callback for one issue
(already pre-filtered on boundingBox presence in the code; the inner
null-check on box is kept as in the source). -/
def renderHtmlMarker (issues : List Issue) (selectedIssueId : Option String)
    (issue : Issue) : Option PlacedMarker :=
  match issue.boundingBox with
  | Option.none => Option.none
  | Option.some box =>
    Option.some
      { id := issue.id
        badge := findIndexId issues issue.id + 1
        left := box.x + box.width / 2
        top := box.y + box.height / 2
        isSelected := selectedIssueId == Option.some issue.id }

/-- The isVideoMatch condition of the zoomable media annotation callback:
on video, the issue is shown when it is the selected issue or when its
timestamp is defined and within 3.0 seconds of the current playback time. -/
def isVideoMatch (isVideo : Bool) (selectedIssueId : Option String)
    (currentTime : ℚ) (issue : Issue) : Bool :=
  isVideo &&
    ((selectedIssueId == Option.some issue.id) ||
      (match issue.timestamp with
       | Option.none => false
       | Option.some ts => decide (|currentTime - ts| < 3)))

/-- Body of the zoomable media (image and video) annotation callback for
one issue: on video the inclusion is gated by isVideoMatch, on images no
time gating applies; then a bounding box is required. -/
def renderMediaMarker (isVideo : Bool) (issues : List Issue)
    (selectedIssueId : Option String) (currentTime : ℚ)
    (issue : Issue) : Option PlacedMarker :=
  if isVideo && !(isVideoMatch isVideo selectedIssueId currentTime issue) then
    Option.none
  else
    match issue.boundingBox with
    | Option.none => Option.none
    | Option.some box =>
      Option.some
        { id := issue.id
          badge := findIndexId issues issue.id + 1
          left := box.x + box.width / 2
          top := box.y + box.height / 2
          isSelected := selectedIssueId == Option.some issue.id }

/-- Markers rendered on the PDF page with 0-based index. -/
def pdfPageMarkers (issues : List Issue) (selectedIssueId : Option String)
    (index : Nat) : List PlacedMarker :=
  issues.filterMap (renderPdfMarker issues selectedIssueId index)

/-- Markers rendered on the PPTX slide with 0-based index. -/
def slidePageMarkers (issues : List Issue) (selectedIssueId : Option String)
    (index : Nat) : List PlacedMarker :=
  issues.filterMap (renderSlideMarker issues selectedIssueId index)

/-- Markers rendered over the HTML document: the source first filters on
issues having a bounding box and then maps the annotation callback. -/
def htmlMarkers (issues : List Issue) (selectedIssueId : Option String) :
    List PlacedMarker :=
  (issues.filter (fun i => i.boundingBox.isSome)).filterMap
    (renderHtmlMarker issues selectedIssueId)

/-- Markers rendered over the zoomable media element: the source first
filters on issues having a bounding box and then maps the callback. -/
def mediaMarkers (isVideo : Bool) (issues : List Issue)
    (selectedIssueId : Option String) (currentTime : ℚ) : List PlacedMarker :=
  (issues.filter (fun i => i.boundingBox.isSome)).filterMap
    (renderMediaMarker isVideo issues selectedIssueId currentTime)

/-- Video seek-bar tick markers: every issue whose timestamp is not
undefined yields a tick at timestamp divided by (duration or-else 1),
times 100 percent. -/
def seekBarTicks (issues : List Issue) (duration : ℚ) : List SeekTick :=
  (issues.filter (fun i => i.timestamp.isSome)).map
    (fun issue =>
      { id := issue.id
        left := issue.timestamp.getD 0 / (if duration = 0 then 1 else duration)
          * 100 })

/-- Navigation intent produced when a selection changes: seek the video and
pause, scroll the carousel to a page, or do nothing. -/
inductive NavigationIntent where
  | seekAndPause (seekTo : ℚ)
  | scrollToPage (page : Int)
  | noNav
deriving Repr, DecidableEq

/-- JavaScript truthiness of the optional numeric field timestamp, as
tested by handleSeekToIssue: falsy exactly when undefined or 0. -/
def tsTruthy : Option ℚ → Bool
  | Option.none => false
  | Option.some t => !(t == 0)

/-- The expression issue.page_number or-else 1 of the selection effect:
1 when the page number is undefined or 0, the page number otherwise. -/
def pageOr1 : Option Int → Int
  | Option.none => 1
  | Option.some q => if q == 0 then 1 else q

/-- The selection effect: find the selected issue; on video run
handleSeekToIssue, which seeks and pauses only when issue.timestamp is
truthy; on a carousel scroll to issue.page_number or-else 1; otherwise no
navigation. -/
def selectIssue (isVideo useCarousel : Bool) (issues : List Issue)
    (selectedIssueId : String) : NavigationIntent :=
  match issues.find? (fun i => i.id == selectedIssueId) with
  | Option.none => NavigationIntent.noNav
  | Option.some issue =>
    if isVideo then
      if tsTruthy issue.timestamp then
        NavigationIntent.seekAndPause (issue.timestamp.getD 0)
      else NavigationIntent.noNav
    else if useCarousel then
      NavigationIntent.scrollToPage (pageOr1 issue.page_number)
    else NavigationIntent.noNav

/-! Helper lemmas shared by the claim theorems below. -/

lemma renderPdfMarker_isSome (issues : List Issue) (sel : Option String)
    (index : Nat) (issue : Issue) :
    (renderPdfMarker issues sel index issue).isSome =
      (isPageMatch issue index && issue.boundingBox.isSome) := by
  unfold renderPdfMarker
  cases hp : isPageMatch issue index <;> cases hb : issue.boundingBox <;>
    simp [hp, hb]

lemma renderSlideMarker_isSome (issues : List Issue) (sel : Option String)
    (index : Nat) (issue : Issue) :
    (renderSlideMarker issues sel index issue).isSome =
      (isPageMatch issue index && issue.boundingBox.isSome) := by
  unfold renderSlideMarker
  cases hp : isPageMatch issue index <;> cases hb : issue.boundingBox <;>
    simp [hp, hb]

lemma isPageMatch_eq_true_iff (issue : Issue) (index : Nat)
    (h0 : issue.page_number ≠ Option.some 0) :
    isPageMatch issue index = true ↔
      issue.page_number = Option.some ((index : Int) + 1) ∨
        (issue.page_number = Option.none ∧ index = 0) := by
  cases hp : issue.page_number with
  | none => simp [isPageMatch, hp, pageFalsy]
  | some q =>
    have hq : ¬(q = 0) := fun h => h0 (by rw [hp, h])
    simp [isPageMatch, hp, pageFalsy, hq]

lemma renderMediaMarker_isSome_video (issues : List Issue) (sel : Option String)
    (t : ℚ) (issue : Issue) :
    (renderMediaMarker true issues sel t issue).isSome = true ↔
      issue.boundingBox.isSome = true ∧
        (sel = Option.some issue.id ∨
          ∃ ts, issue.timestamp = Option.some ts ∧ |t - ts| < 3) := by
  unfold renderMediaMarker isVideoMatch
  cases hb : issue.boundingBox <;> cases hts : issue.timestamp <;>
    by_cases hsel : sel = Option.some issue.id <;>
      simp [hb, hts, hsel]

lemma renderPdfMarker_some_shape (issues : List Issue) (sel : Option String)
    (index : Nat) (a : Issue) (m : PlacedMarker)
    (h : renderPdfMarker issues sel index a = Option.some m) :
    m.id = a.id ∧ m.badge = findIndexId issues a.id + 1 ∧
      ∃ box, a.boundingBox = Option.some box ∧
        m.left = box.x + box.width / 2 ∧ m.top = box.y + box.height / 2 := by
  unfold renderPdfMarker at h
  split at h
  · exact absurd h (by simp)
  · cases hb : a.boundingBox with
    | none => rw [hb] at h; exact absurd h (by simp)
    | some box =>
      rw [hb] at h
      simp only [Option.some.injEq] at h
      subst h
      exact ⟨rfl, rfl, box, rfl, rfl, rfl⟩

lemma renderSlideMarker_some_shape (issues : List Issue) (sel : Option String)
    (index : Nat) (a : Issue) (m : PlacedMarker)
    (h : renderSlideMarker issues sel index a = Option.some m) :
    m.id = a.id ∧ m.badge = findIndexId issues a.id + 1 ∧
      ∃ box, a.boundingBox = Option.some box ∧
        m.left = box.x + box.width / 2 ∧ m.top = box.y + box.height / 2 := by
  unfold renderSlideMarker at h
  split at h
  · exact absurd h (by simp)
  · cases hb : a.boundingBox with
    | none => rw [hb] at h; exact absurd h (by simp)
    | some box =>
      rw [hb] at h
      simp only [Option.some.injEq] at h
      subst h
      exact ⟨rfl, rfl, box, rfl, rfl, rfl⟩

lemma renderHtmlMarker_some_shape (issues : List Issue) (sel : Option String)
    (a : Issue) (m : PlacedMarker)
    (h : renderHtmlMarker issues sel a = Option.some m) :
    m.id = a.id ∧ m.badge = findIndexId issues a.id + 1 ∧
      ∃ box, a.boundingBox = Option.some box ∧
        m.left = box.x + box.width / 2 ∧ m.top = box.y + box.height / 2 := by
  unfold renderHtmlMarker at h
  cases hb : a.boundingBox with
  | none => rw [hb] at h; exact absurd h (by simp)
  | some box =>
    rw [hb] at h
    simp only [Option.some.injEq] at h
    subst h
    exact ⟨rfl, rfl, box, rfl, rfl, rfl⟩

lemma renderMediaMarker_some_shape (isVideo : Bool) (issues : List Issue)
    (sel : Option String) (t : ℚ) (a : Issue) (m : PlacedMarker)
    (h : renderMediaMarker isVideo issues sel t a = Option.some m) :
    m.id = a.id ∧ m.badge = findIndexId issues a.id + 1 ∧
      ∃ box, a.boundingBox = Option.some box ∧
        m.left = box.x + box.width / 2 ∧ m.top = box.y + box.height / 2 := by
  unfold renderMediaMarker at h
  split at h
  · exact absurd h (by simp)
  · cases hb : a.boundingBox with
    | none => rw [hb] at h; exact absurd h (by simp)
    | some box =>
      rw [hb] at h
      simp only [Option.some.injEq] at h
      subst h
      exact ⟨rfl, rfl, box, rfl, rfl, rfl⟩

lemma renderPdfMarker_no_box (issues : List Issue) (sel : Option String)
    (index : Nat) (issue : Issue) (hb : issue.boundingBox = Option.none) :
    renderPdfMarker issues sel index issue = Option.none := by
  unfold renderPdfMarker
  split
  · rfl
  · rw [hb]

lemma renderSlideMarker_no_box (issues : List Issue) (sel : Option String)
    (index : Nat) (issue : Issue) (hb : issue.boundingBox = Option.none) :
    renderSlideMarker issues sel index issue = Option.none := by
  unfold renderSlideMarker
  split
  · rfl
  · rw [hb]

lemma renderHtmlMarker_no_box (issues : List Issue) (sel : Option String)
    (issue : Issue) (hb : issue.boundingBox = Option.none) :
    renderHtmlMarker issues sel issue = Option.none := by
  unfold renderHtmlMarker
  rw [hb]

lemma renderMediaMarker_no_box (isVideo : Bool) (issues : List Issue)
    (sel : Option String) (t : ℚ) (issue : Issue)
    (hb : issue.boundingBox = Option.none) :
    renderMediaMarker isVideo issues sel t issue = Option.none := by
  unfold renderMediaMarker
  split
  · rfl
  · rw [hb]

lemma jsFindIndex_nodup_ids (issues : List Issue) (i : Nat) (issue : Issue)
    (hn : (issues.map Issue.id).Nodup) (hi : issues[i]? = Option.some issue) :
    jsFindIndex (fun x => x.id == issue.id) issues = (i : Int) := by
  induction issues generalizing i with
  | nil => simp at hi
  | cons a l ih =>
    cases i with
    | zero =>
      simp only [List.getElem?_cons_zero, Option.some.injEq] at hi
      subst hi
      simp [jsFindIndex]
    | succ n =>
      have hi2 : l[n]? = Option.some issue := by simpa using hi
      have hmem : issue ∈ l := List.getElem?_mem hi2
      simp only [List.map_cons, List.nodup_cons] at hn
      have hne : ¬(a.id = issue.id) := by
        intro h
        exact hn.1 (h ▸ List.mem_map.mpr ⟨issue, hmem, rfl⟩)
      have hr := ih n hn.2 hi2
      have hpa : (fun x => x.id == issue.id) a = false := by
        simp [hne]
      simp only [jsFindIndex, hpa, Bool.false_eq_true, if_false]
      rw [hr]
      rw [if_neg (by omega)]
      omega

lemma mem_pdfPageMarkers (issues : List Issue) (sel : Option String)
    (index : Nat) (m : PlacedMarker) (h : m ∈ pdfPageMarkers issues sel index) :
    ∃ a ∈ issues, renderPdfMarker issues sel index a = Option.some m :=
  List.mem_filterMap.mp h

lemma mem_slidePageMarkers (issues : List Issue) (sel : Option String)
    (index : Nat) (m : PlacedMarker)
    (h : m ∈ slidePageMarkers issues sel index) :
    ∃ a ∈ issues, renderSlideMarker issues sel index a = Option.some m :=
  List.mem_filterMap.mp h

lemma mem_htmlMarkers (issues : List Issue) (sel : Option String)
    (m : PlacedMarker) (h : m ∈ htmlMarkers issues sel) :
    ∃ a ∈ issues, renderHtmlMarker issues sel a = Option.some m := by
  obtain ⟨a, ha, hr⟩ := List.mem_filterMap.mp h
  exact ⟨a, (List.mem_filter.mp ha).1, hr⟩

lemma mem_mediaMarkers (isVideo : Bool) (issues : List Issue)
    (sel : Option String) (t : ℚ) (m : PlacedMarker)
    (h : m ∈ mediaMarkers isVideo issues sel t) :
    ∃ a ∈ issues, renderMediaMarker isVideo issues sel t a = Option.some m := by
  obtain ⟨a, ha, hr⟩ := List.mem_filterMap.mp h
  exact ⟨a, (List.mem_filter.mp ha).1, hr⟩

lemma renderPdfMarker_sel_map_id (issues : List Issue) (s1 s2 : Option String)
    (index : Nat) (a : Issue) :
    Option.map PlacedMarker.id (renderPdfMarker issues s1 index a) =
      Option.map PlacedMarker.id (renderPdfMarker issues s2 index a) := by
  unfold renderPdfMarker
  cases hc : isPageMatch a index
  · simp [hc]
  · cases a.boundingBox <;> rfl

lemma renderSlideMarker_sel_map_id (issues : List Issue) (s1 s2 : Option String)
    (index : Nat) (a : Issue) :
    Option.map PlacedMarker.id (renderSlideMarker issues s1 index a) =
      Option.map PlacedMarker.id (renderSlideMarker issues s2 index a) := by
  unfold renderSlideMarker
  cases hc : isPageMatch a index
  · simp [hc]
  · cases a.boundingBox <;> rfl

lemma filterMap_map_id_congr (f g : Issue → Option PlacedMarker)
    (h : ∀ a, Option.map PlacedMarker.id (f a) = Option.map PlacedMarker.id (g a))
    (L : List Issue) :
    (L.filterMap f).map PlacedMarker.id = (L.filterMap g).map PlacedMarker.id := by
  induction L with
  | nil => rfl
  | cons a l ih =>
    have ha := h a
    cases hf : f a with
    | none =>
      cases hg : g a with
      | none => simp [List.filterMap_cons, hf, hg, ih]
      | some b => rw [hf, hg] at ha; simp at ha
    | some b =>
      cases hg : g a with
      | none => rw [hf, hg] at ha; simp at ha
      | some c =>
        rw [hf, hg] at ha
        simp at ha
        simp [List.filterMap_cons, hf, hg, ih, ha]

/-! Concrete fixtures used by witnesses and counterexamples. -/

/-- Builds a concrete issue with fixed text fields. -/
def mkTestIssue (id : String) (box : Option BoundingBox) (pn : Option Int)
    (ts : Option ℚ) : Issue :=
  { id := id, category := "Compliance", description := "desc", fix := "fix",
    severity := Severity.high, boundingBox := box, page_number := pn,
    timestamp := ts }

def c1Issue : Issue :=
  mkTestIssue "a" (Option.some { x := 10, y := 10, width := 5, height := 5 })
    (Option.some 2) Option.none

def c2Issue : Issue :=
  mkTestIssue "v" (Option.some { x := 20, y := 20, width := 10, height := 10 })
    Option.none (Option.some 1)

def c6Issue : Issue :=
  mkTestIssue "n" Option.none (Option.some 1) (Option.some 5)

def c7Box : BoundingBox := { x := 120, y := -10, width := 10, height := 4 }

def c7Issue : Issue :=
  mkTestIssue "o" (Option.some c7Box) Option.none Option.none

def c7Marker : PlacedMarker :=
  { id := "o", badge := 1, left := 125, top := -8, isSelected := false }

def c8Issue : Issue :=
  mkTestIssue "i" (Option.some { x := 0, y := 0, width := 50, height := 50 })
    Option.none Option.none

def c10Issue : Issue :=
  mkTestIssue "t" Option.none Option.none (Option.some 30)

/-! Claim theorems. -/

/-- C1: on a paginated or carousel asset (PDF pages and visual slides), an
issue produces a marker on the page with 0-based index (1-based page
index + 1) if and only if it has a bounding box and either its page number
equals index + 1, or it has no page number and the page is the first one;
hence an issue with a bounding box and page number q is marked exactly on
page q. Page numbers are the 1-based integers of the data model, so the
hypothesis excludes the malformed value 0, whose behaviour is settled with
the malformed-input claim. -/
theorem carousel_page_gating (issues : List Issue) (sel : Option String)
    (index : Nat) (issue : Issue)
    (h0 : issue.page_number ≠ Option.some 0) :
    ((renderPdfMarker issues sel index issue).isSome = true ↔
       issue.boundingBox.isSome = true ∧
         (issue.page_number = Option.some ((index : Int) + 1) ∨
           (issue.page_number = Option.none ∧ index = 0))) ∧
    ((renderSlideMarker issues sel index issue).isSome = true ↔
       issue.boundingBox.isSome = true ∧
         (issue.page_number = Option.some ((index : Int) + 1) ∨
           (issue.page_number = Option.none ∧ index = 0))) := by
  constructor
  · rw [renderPdfMarker_isSome, Bool.and_eq_true,
      isPageMatch_eq_true_iff issue index h0]
    tauto
  · rw [renderSlideMarker_isSome, Bool.and_eq_true,
      isPageMatch_eq_true_iff issue index h0]
    tauto

/-- Witness for C1: the issue with page number 2 and a bounding box is
rendered on the page with 0-based index 1. -/
theorem carousel_page_gating_witness :
    (renderPdfMarker [c1Issue] Option.none 1 c1Issue).isSome = true :=
  (carousel_page_gating [c1Issue] Option.none 1 c1Issue (by decide)).1.mpr
    (by decide)

/-- C2: on a video asset, an issue with a bounding box produces a marker
if and only if it is the currently selected issue, or it has a timestamp
within 3.0 seconds of the current playback time; in particular, when the
distance is at least 3.0 and it is not selected, no marker is produced. -/
theorem video_time_window (issues : List Issue) (sel : Option String)
    (t : ℚ) (issue : Issue) (hb : issue.boundingBox.isSome = true) :
    (renderMediaMarker true issues sel t issue).isSome = true ↔
      sel = Option.some issue.id ∨
        ∃ ts, issue.timestamp = Option.some ts ∧ |t - ts| < 3 := by
  rw [renderMediaMarker_isSome_video]
  simp [hb]

/-- Witness for C2: an unselected issue with timestamp 1 is rendered at
playback time 0. -/
theorem video_time_window_witness :
    (renderMediaMarker true [c2Issue] Option.none 0 c2Issue).isSome = true :=
  (video_time_window [c2Issue] Option.none 0 c2Issue (by decide)).mpr
    (Or.inr ⟨1, rfl, by norm_num⟩)

/-- C6: an issue without a bounding box is never placed as an overlay
marker: in every rendering branch (PDF carousel, slide carousel, HTML
document, image and video) the annotation callback returns null for it,
and the issue does not survive the bounding-box pre-filter of the HTML and
media branches. -/
theorem no_box_never_placed (issue : Issue)
    (hb : issue.boundingBox = Option.none) :
    ∀ (issues : List Issue) (sel : Option String) (index : Nat) (iv : Bool)
      (t : ℚ),
      renderPdfMarker issues sel index issue = Option.none ∧
      renderSlideMarker issues sel index issue = Option.none ∧
      renderHtmlMarker issues sel issue = Option.none ∧
      renderMediaMarker iv issues sel t issue = Option.none ∧
      issue ∉ issues.filter (fun i => i.boundingBox.isSome) := by
  intro issues sel index iv t
  refine ⟨renderPdfMarker_no_box _ _ _ _ hb,
    renderSlideMarker_no_box _ _ _ _ hb,
    renderHtmlMarker_no_box _ _ _ hb,
    renderMediaMarker_no_box _ _ _ _ _ hb, ?_⟩
  intro hmem
  have h2 := (List.mem_filter.mp hmem).2
  rw [hb] at h2
  simp at h2

/-- Witness for C6 at a concrete issue carrying a page number and a
timestamp but no bounding box. -/
theorem no_box_never_placed_witness :
    renderPdfMarker [c6Issue] Option.none 0 c6Issue = Option.none ∧
    renderSlideMarker [c6Issue] Option.none 0 c6Issue = Option.none ∧
    renderHtmlMarker [c6Issue] Option.none c6Issue = Option.none ∧
    renderMediaMarker true [c6Issue] Option.none 5 c6Issue = Option.none ∧
    c6Issue ∉ [c6Issue].filter (fun i => i.boundingBox.isSome) :=
  no_box_never_placed c6Issue rfl [c6Issue] Option.none 0 true 5

/-- C7: every placed marker is anchored at the center of its bounding box,
left = x + width / 2 and top = y + height / 2 in percentage units, in
every rendering branch; no clamping or validation is applied, since the
equality holds for arbitrary box coordinates, including values outside
the range 0 to 100. -/
theorem marker_center_placement (issue : Issue) (box : BoundingBox)
    (hb : issue.boundingBox = Option.some box) :
    ∀ (issues : List Issue) (sel : Option String) (index : Nat) (iv : Bool)
      (t : ℚ) (m : PlacedMarker),
      (renderPdfMarker issues sel index issue = Option.some m ∨
        renderSlideMarker issues sel index issue = Option.some m ∨
        renderHtmlMarker issues sel issue = Option.some m ∨
        renderMediaMarker iv issues sel t issue = Option.some m) →
      m.left = box.x + box.width / 2 ∧ m.top = box.y + box.height / 2 := by
  intro issues sel index iv t m h
  rcases h with h | h | h | h
  · obtain ⟨-, -, box2, hb2, hl, ht⟩ := renderPdfMarker_some_shape _ _ _ _ _ h
    rw [hb] at hb2
    obtain rfl := Option.some.inj hb2
    exact ⟨hl, ht⟩
  · obtain ⟨-, -, box2, hb2, hl, ht⟩ := renderSlideMarker_some_shape _ _ _ _ _ h
    rw [hb] at hb2
    obtain rfl := Option.some.inj hb2
    exact ⟨hl, ht⟩
  · obtain ⟨-, -, box2, hb2, hl, ht⟩ := renderHtmlMarker_some_shape _ _ _ _ h
    rw [hb] at hb2
    obtain rfl := Option.some.inj hb2
    exact ⟨hl, ht⟩
  · obtain ⟨-, -, box2, hb2, hl, ht⟩ :=
      renderMediaMarker_some_shape _ _ _ _ _ _ h
    rw [hb] at hb2
    obtain rfl := Option.some.inj hb2
    exact ⟨hl, ht⟩

/-- Witness for C7 at a bounding box lying outside the 0 to 100 range:
the marker is placed at its unclamped center 125 percent, -8 percent. -/
theorem marker_center_placement_witness :
    c7Marker.left = c7Box.x + c7Box.width / 2 ∧
      c7Marker.top = c7Box.y + c7Box.height / 2 :=
  marker_center_placement c7Issue c7Box rfl [c7Issue] Option.none 0 false 0
    c7Marker (Or.inr (Or.inr (Or.inr (by
      unfold renderMediaMarker
      simp [c7Issue, mkTestIssue, c7Box, c7Marker, findIndexId, jsFindIndex]
      norm_num))))

/-- C8: on a static image asset, every issue with a bounding box is placed
as a marker, for every selection and every playback-time value of the view
state; no page or time gating applies. -/
theorem image_markers_unconditional (issues : List Issue) (sel : Option String)
    (t : ℚ) (issue : Issue) (hmem : issue ∈ issues)
    (hb : issue.boundingBox.isSome = true) :
    ∃ m ∈ mediaMarkers false issues sel t, m.id = issue.id := by
  obtain ⟨box, hbox⟩ := Option.isSome_iff_exists.mp hb
  refine ⟨{ id := issue.id, badge := findIndexId issues issue.id + 1,
            left := box.x + box.width / 2, top := box.y + box.height / 2,
            isSelected := sel == Option.some issue.id },
    List.mem_filterMap.mpr ⟨issue, List.mem_filter.mpr ⟨hmem, hb⟩, ?_⟩, rfl⟩
  unfold renderMediaMarker
  simp [hbox]

/-- Witness for C8: a boxed issue appears among the image markers. -/
theorem image_markers_unconditional_witness :
    ∃ m ∈ mediaMarkers false [c8Issue] Option.none 0, m.id = c8Issue.id :=
  image_markers_unconditional [c8Issue] Option.none 0 c8Issue (by decide)
    (by decide)

/-- C9: on the carousels (PDF pages and visual slides) the list of marker
ids included on a page is the same for any two selected-issue ids:
selection changes only styling and scrolling, never marker inclusion. -/
theorem carousel_selection_noninterference (issues : List Issue)
    (index : Nat) (s1 s2 : Option String) :
    (pdfPageMarkers issues s1 index).map PlacedMarker.id =
        (pdfPageMarkers issues s2 index).map PlacedMarker.id ∧
      (slidePageMarkers issues s1 index).map PlacedMarker.id =
        (slidePageMarkers issues s2 index).map PlacedMarker.id :=
  ⟨filterMap_map_id_congr _ _
      (fun a => renderPdfMarker_sel_map_id issues s1 s2 index a) issues,
    filterMap_map_id_congr _ _
      (fun a => renderSlideMarker_sel_map_id issues s1 s2 index a) issues⟩

/-- C10: on a video asset, every issue with a defined timestamp, bounding
box or not, yields a seek-bar tick at timestamp divided by the duration
(with duration replaced by 1 when it is 0), times 100 percent; the tick
computation takes no playback-time input. -/
theorem seek_bar_tick (issues : List Issue) (duration : ℚ) (issue : Issue)
    (ts : ℚ) (hmem : issue ∈ issues)
    (hts : issue.timestamp = Option.some ts) :
    ({ id := issue.id,
       left := ts / (if duration = 0 then 1 else duration) * 100 } : SeekTick)
      ∈ seekBarTicks issues duration := by
  unfold seekBarTicks
  refine List.mem_map.mpr ⟨issue, List.mem_filter.mpr ⟨hmem, by simp [hts]⟩, ?_⟩
  simp [hts]

/-- Witness for C10: a box-less issue with timestamp 30 yields a tick at
25 percent of a 120 second video. -/
theorem seek_bar_tick_witness :
    ({ id := c10Issue.id,
       left := 30 / (if (120 : ℚ) = 0 then 1 else 120) * 100 } : SeekTick)
      ∈ seekBarTicks [c10Issue] 120 :=
  seek_bar_tick [c10Issue] 120 c10Issue 30 (by decide) rfl

def c3IssueA : Issue :=
  mkTestIssue "a3" (Option.some { x := 10, y := 10, width := 5, height := 5 })
    (Option.some 1) Option.none

def c3IssueB : Issue :=
  mkTestIssue "b3" (Option.some { x := 50, y := 50, width := 5, height := 5 })
    (Option.some 1) Option.none

/-- C3: for an issue list with unique ids, the badge number on any visible
marker whose id is the id of the issue stored at 0-based position i of the
original unfiltered list equals i + 1, in every rendering branch and for
every page, time and selection of the view state. -/
theorem badge_stability (issues : List Issue) (i : Nat) (issue : Issue)
    (hn : (issues.map Issue.id).Nodup) (hi : issues[i]? = Option.some issue) :
    ∀ (sel : Option String) (index : Nat) (iv : Bool) (t : ℚ)
      (m : PlacedMarker),
      (m ∈ pdfPageMarkers issues sel index ∨
        m ∈ slidePageMarkers issues sel index ∨
        m ∈ htmlMarkers issues sel ∨
        m ∈ mediaMarkers iv issues sel t) →
      m.id = issue.id → m.badge = (i : Int) + 1 := by
  intro sel index iv t m hm hid
  have hfi : findIndexId issues issue.id = (i : Int) :=
    jsFindIndex_nodup_ids issues i issue hn hi
  rcases hm with hm | hm | hm | hm
  · obtain ⟨a, ha, hr⟩ := mem_pdfPageMarkers _ _ _ _ hm
    obtain ⟨hid2, hbadge, -⟩ := renderPdfMarker_some_shape _ _ _ _ _ hr
    have e : a.id = issue.id := hid2.symm.trans hid
    rw [hbadge, e]
    unfold findIndexId at hfi ⊢
    rw [hfi]
  · obtain ⟨a, ha, hr⟩ := mem_slidePageMarkers _ _ _ _ hm
    obtain ⟨hid2, hbadge, -⟩ := renderSlideMarker_some_shape _ _ _ _ _ hr
    have e : a.id = issue.id := hid2.symm.trans hid
    rw [hbadge, e]
    unfold findIndexId at hfi ⊢
    rw [hfi]
  · obtain ⟨a, ha, hr⟩ := mem_htmlMarkers _ _ _ hm
    obtain ⟨hid2, hbadge, -⟩ := renderHtmlMarker_some_shape _ _ _ _ hr
    have e : a.id = issue.id := hid2.symm.trans hid
    rw [hbadge, e]
    unfold findIndexId at hfi ⊢
    rw [hfi]
  · obtain ⟨a, ha, hr⟩ := mem_mediaMarkers _ _ _ _ _ hm
    obtain ⟨hid2, hbadge, -⟩ := renderMediaMarker_some_shape _ _ _ _ _ _ hr
    have e : a.id = issue.id := hid2.symm.trans hid
    rw [hbadge, e]
    unfold findIndexId at hfi ⊢
    rw [hfi]

/-- Witness for C3: in a two-issue list both placed on page 1, the marker
carrying the id of the second issue shows badge 2. -/
theorem badge_stability_witness :
    ({ id := "b3", badge := 2, left := 105 / 2, top := 105 / 2,
       isSelected := false } : PlacedMarker).badge = ((1 : Nat) : Int) + 1 :=
  badge_stability [c3IssueA, c3IssueB] 1 c3IssueB (by decide) (by decide)
    Option.none 0 false 0
    { id := "b3", badge := 2, left := 105 / 2, top := 105 / 2,
      isSelected := false }
    (Or.inl (by
      unfold pdfPageMarkers renderPdfMarker
      simp [c3IssueA, c3IssueB, mkTestIssue, isPageMatch, pageFalsy,
        findIndexId, jsFindIndex]
      norm_num))
    rfl

def c4Issue : Issue :=
  mkTestIssue "v0" (Option.some { x := 5, y := 5, width := 2, height := 2 })
    Option.none (Option.some 0)

def c4GoodIssue : Issue :=
  mkTestIssue "vg" Option.none Option.none (Option.some (85 / 2))

/-- C4 counterexample: on a video asset, selecting the issue with
timestamp 0 produces no seek intent at all, contradicting the claim that
any issue with a timestamp yields a seek to that timestamp with a pause;
handleSeekToIssue tests the timestamp for truthiness and 0 is falsy. -/
theorem select_issue_counterexample :
    ¬(selectIssue true false [c4Issue] "v0" =
        NavigationIntent.seekAndPause 0) := by
  decide

/-- C4 amended: selecting an issue found for the given id behaves as
follows. On a video asset, when the issue has a nonzero timestamp the
intent is a seek to exactly that timestamp together with a pause, and when
the timestamp is 0 no navigation intent is produced (timestamp truthiness);
on a carousel asset the intent is a scroll to the page number of the issue,
defaulting to page 1 when the issue has no page number (page numbers being
the 1-based values of the data model). -/
theorem select_issue_navigation (issues : List Issue) (sid : String)
    (issue : Issue) (uc : Bool)
    (hf : issues.find? (fun i => i.id == sid) = Option.some issue) :
    (∀ ts : ℚ, issue.timestamp = Option.some ts → ts ≠ 0 →
        selectIssue true uc issues sid = NavigationIntent.seekAndPause ts) ∧
      (issue.timestamp = Option.some 0 →
        selectIssue true uc issues sid = NavigationIntent.noNav) ∧
      ((∀ q : Int, issue.page_number = Option.some q → q ≠ 0) →
        selectIssue false true issues sid =
          NavigationIntent.scrollToPage (issue.page_number.getD 1)) := by
  refine ⟨?_, ?_, ?_⟩
  · intro ts hts hne
    unfold selectIssue
    rw [hf]
    simp [tsTruthy, hts, hne]
  · intro hts
    unfold selectIssue
    rw [hf]
    simp [tsTruthy, hts]
  · intro hq
    unfold selectIssue
    rw [hf]
    cases hp : issue.page_number with
    | none => simp [pageOr1, hp]
    | some q => simp [pageOr1, hp, hq q hp]

/-- Witness for C4 amended: selecting a video issue with timestamp 42.5
produces a seek to 42.5 with a pause. -/
theorem select_issue_navigation_witness :
    selectIssue true false [c4GoodIssue] "vg" =
      NavigationIntent.seekAndPause (85 / 2) :=
  (select_issue_navigation [c4GoodIssue] "vg" c4GoodIssue false rfl).1
    (85 / 2) rfl (by norm_num)

def c5PageZero : Issue :=
  mkTestIssue "p0" (Option.some { x := 5, y := 5, width := 2, height := 2 })
    (Option.some 0) Option.none

def c5NegTs : Issue :=
  mkTestIssue "nt" (Option.some { x := 5, y := 5, width := 2, height := 2 })
    Option.none (Option.some (-1))

def c5W : Issue :=
  mkTestIssue "w5" (Option.some { x := 5, y := 5, width := 2, height := 2 })
    (Option.some 7) (Option.some (-2))

/-- C5 counterexample: malformed inputs are not always omitted. An issue
with a bounding box and the out-of-range page number 0 produces a marker
on the first carousel page (0 is falsy, so the issue is treated as
un-paginated), and an unselected issue with a bounding box and the
negative timestamp -1 produces a video marker at playback time 0 (the
3-second window applies to it unchanged). -/
theorem malformed_omission_counterexample :
    (renderPdfMarker [c5PageZero] Option.none 0 c5PageZero).isSome = true ∧
      (renderMediaMarker true [c5NegTs] Option.none 0 c5NegTs).isSome
        = true := by
  constructor
  · unfold renderPdfMarker
    simp [c5PageZero, mkTestIssue, isPageMatch, pageFalsy]
  · unfold renderMediaMarker isVideoMatch
    simp [c5NegTs, mkTestIssue]

/-- C5 amended: the marker computation is total and handles malformed page
numbers as follows: an issue whose page number is negative or greater than
the page count produces no marker on any rendered carousel page; the page
number 0 is instead treated like a missing page number, so on the first
page such an issue produces a marker exactly when it has a bounding box;
and a negative timestamp is not specially rejected: on video the usual
rule applies to it, the issue being shown exactly when selected or within
3 seconds of the playback time. -/
theorem malformed_input_handling (issues : List Issue) (sel : Option String)
    (issue : Issue) :
    (∀ q : Int, issue.page_number = Option.some q →
      ∀ numPages index : Nat, index < numPages →
        (q < 0 ∨ (numPages : Int) < q) →
        renderPdfMarker issues sel index issue = Option.none ∧
          renderSlideMarker issues sel index issue = Option.none) ∧
      (issue.page_number = Option.some 0 →
        (renderPdfMarker issues sel 0 issue).isSome
          = issue.boundingBox.isSome) ∧
      (∀ t ts : ℚ, issue.timestamp = Option.some ts → ts < 0 →
        ((renderMediaMarker true issues sel t issue).isSome = true ↔
          issue.boundingBox.isSome = true ∧
            (sel = Option.some issue.id ∨ |t - ts| < 3))) := by
  refine ⟨?_, ?_, ?_⟩
  · intro q hp numPages index hlt hout
    have hq0 : ¬(q = 0) := by omega
    have hmatch : isPageMatch issue index = false := by
      simp [isPageMatch, hp, pageFalsy, hq0]
      omega
    constructor
    · unfold renderPdfMarker
      rw [hmatch]
      simp
    · unfold renderSlideMarker
      rw [hmatch]
      simp
  · intro hp
    have hmatch : isPageMatch issue 0 = true := by
      simp [isPageMatch, hp, pageFalsy]
    rw [renderPdfMarker_isSome, hmatch, Bool.true_and]
  · intro t ts hts hneg
    rw [renderMediaMarker_isSome_video]
    simp [hts]

/-- Witness for C5 amended: the issue with page number 7 produces no
marker on page index 2 of a 3-page document. -/
theorem malformed_input_handling_witness :
    renderPdfMarker [c5W] Option.none 2 c5W = Option.none :=
  ((malformed_input_handling [c5W] Option.none c5W).1 7 rfl 3 2
    (by norm_num) (Or.inr (by norm_num))).1
